import Mathlib

/-
  Shallow embedding of the attendance/justification lifecycle core of the
  hodory-attendance-system backend (src/backend/src).

  Conventions used throughout:
  - Each SQLModel table becomes a structure; each table of the database is a
    list field of the `DB` state record.  Autoincrement primary keys are
    modelled by explicit next-id counters on `DB`.
  - `session.get(Model, id)` and `select(...).first()` become `List.find?`;
    `.all()` becomes `List.filter`.
  - `HTTPException(status_code, detail)` becomes the `Err` structure.  The
    source raises every error before any mutation of the rows a claim talks
    about (checked path by path against the Python), so an operation is
    modelled as `DB -> ... -> DB × Except Err α`: on an error the returned
    state is the state committed at the time of the raise.
  - Timestamp columns (`created_at`, `date_time`) never influence any
    branch of the modelled code and are omitted.
  - `round(x, 2)` on a Python float is modelled as rational rounding to two
    decimal places; at every value evaluated in this file the two agree.
-/

namespace Hodory

/-- models/enums.py: AttendanceStatus. -/
inductive AttendanceStatus where
  | PRESENT
  | ABSENT
  | EXCLUDED
deriving DecidableEq, Repr

/-- models/enums.py: the string value of an AttendanceStatus member. -/
def AttendanceStatus.value : AttendanceStatus → String
  | .PRESENT => "present"
  | .ABSENT => "absent"
  | .EXCLUDED => "excluded"

/-- models/enums.py: JustificationStatus. -/
inductive JustificationStatus where
  | PENDING
  | APPROVED
  | REJECTED
deriving DecidableEq, Repr

/-- models/enums.py: the string value of a JustificationStatus member. -/
def JustificationStatus.value : JustificationStatus → String
  | .PENDING => "pending"
  | .APPROVED => "approved"
  | .REJECTED => "rejected"

/-- models/enums.py: NotificationType. -/
inductive NotificationType where
  | JUSTIFICATION_SUBMITTED
  | JUSTIFICATION_REJECTED
  | JUSTIFICATION_APPROVED
deriving DecidableEq, Repr

/-- fastapi.HTTPException carrying a status code and a detail message. -/
structure Err where
  status_code : Nat
  detail : String
deriving DecidableEq, Repr

deriving instance DecidableEq for Except

/-- models/attendance.py: AttendanceRecord row. -/
structure AttendanceRecord where
  id : Nat
  status : AttendanceStatus
  session_id : Nat
  module_id : Nat
  enrollement_id : Nat
  justification_id : Option Nat
deriving DecidableEq, Repr

/-- models/enrollement.py: Enrollment row. -/
structure Enrollment where
  id : Nat
  student_id : Nat
  module_id : Nat
  number_of_absences : Nat
  number_of_absences_justified : Nat
  is_excluded : Bool
  student_name : Option String
  student_email : Option String
deriving DecidableEq, Repr

/-- models/session.py: Session row (imported as ClassSession in the source). -/
structure ClassSession where
  id : Nat
  session_code : String
  room : Option String
  duration_minutes : Nat
  is_active : Bool
  teacher_module_id : Nat
deriving DecidableEq, Repr

/-- models/justification.py: Justification row. -/
structure Justification where
  id : Nat
  attendance_record_id : Nat
  comment : Option String
  file_url : Option String
  status : JustificationStatus
deriving DecidableEq, Repr

/-- models/teacher_modules.py: TeacherModules row (teacher-module assignment). -/
structure TeacherModules where
  id : Nat
  teacher_id : Nat
  module_id : Nat
deriving DecidableEq, Repr

/-- models/student.py: Student row (fields used by the modelled code). -/
structure Student where
  id : Nat
  user_id : Nat
deriving DecidableEq, Repr

/-- models/teacher.py: Teacher row (fields used by the modelled code). -/
structure Teacher where
  id : Nat
deriving DecidableEq, Repr

/-- models/module.py: Module row (fields used by the modelled code). -/
structure Module where
  id : Nat
  name : String
  room : Option String
deriving DecidableEq, Repr

/-- models/user.py: User row (fields used by the modelled code). -/
structure User where
  id : Nat
deriving DecidableEq, Repr

/-- models/notification.py: Notification row (fields used by the modelled code). -/
structure Notification where
  id : Nat
  user_id : Nat
  title : String
  message : String
  ntype : NotificationType
  is_read : Bool
deriving DecidableEq, Repr

/-- The relational store: one list per table plus autoincrement counters. -/
structure DB where
  users : List User
  students : List Student
  teachers : List Teacher
  modules : List Module
  teacher_modules : List TeacherModules
  enrollments : List Enrollment
  sessions : List ClassSession
  attendance_records : List AttendanceRecord
  justifications : List Justification
  notifications : List Notification
  next_enrollment_id : Nat
  next_session_id : Nat
  next_attendance_id : Nat
  next_justification_id : Nat
  next_notification_id : Nat
deriving DecidableEq, Repr

def DB.getUser (db : DB) (i : Nat) : Option User :=
  db.users.find? (fun u => u.id == i)

def DB.getStudent (db : DB) (i : Nat) : Option Student :=
  db.students.find? (fun s => s.id == i)

def DB.getTeacher (db : DB) (i : Nat) : Option Teacher :=
  db.teachers.find? (fun t => t.id == i)

def DB.getModule (db : DB) (i : Nat) : Option Module :=
  db.modules.find? (fun m => m.id == i)

def DB.getTeacherModule (db : DB) (i : Nat) : Option TeacherModules :=
  db.teacher_modules.find? (fun t => t.id == i)

def DB.getEnrollment (db : DB) (i : Nat) : Option Enrollment :=
  db.enrollments.find? (fun e => e.id == i)

def DB.getSession (db : DB) (i : Nat) : Option ClassSession :=
  db.sessions.find? (fun s => s.id == i)

def DB.getAttendanceRecord (db : DB) (i : Nat) : Option AttendanceRecord :=
  db.attendance_records.find? (fun r => r.id == i)

def DB.getJustification (db : DB) (i : Nat) : Option Justification :=
  db.justifications.find? (fun j => j.id == i)

/-- controllers/attendance_controller.py, update_attendance_status: the
valid_transitions dict (`.get(status, [])` never hits the default because
every member is a key). -/
def valid_transitions : AttendanceStatus → List AttendanceStatus
  | .ABSENT => [.PRESENT, .EXCLUDED]
  | .PRESENT => [.ABSENT]
  | .EXCLUDED => [.ABSENT]

/-- The detail message of the InvalidTransition error, naming the rejected
source/target pair. -/
def transition_err_detail (src tgt : AttendanceStatus) : String :=
  "Cannot change status from " ++ src.value ++ " to " ++ tgt.value

/-- AttendanceController.update_attendance_status. -/
def update_attendance_status (db : DB) (attendance_id : Nat)
    (new_status : AttendanceStatus) : DB × Except Err AttendanceRecord :=
  match db.getAttendanceRecord attendance_id with
  | none =>
      (db, .error ⟨404, "Attendance record with ID " ++ toString attendance_id
                    ++ " not found"⟩)
  | some attendance =>
      if new_status ∈ valid_transitions attendance.status then
        let updated := { attendance with status := new_status }
        let recs := db.attendance_records.map
          (fun r => if r.id == attendance_id then updated else r)
        ({ db with attendance_records := recs }, .ok updated)
      else
        (db, .error ⟨400, transition_err_detail attendance.status new_status⟩)

/-- AttendanceController.bulk_update_status: the per-item loop.  A failing
item is skipped (`except HTTPException: continue`) and, since
update_attendance_status mutates nothing on an error, processing continues
on the unchanged state. -/
def bulk_update_loop (db : DB) (new_status : AttendanceStatus) :
    List Nat → DB × List AttendanceRecord
  | [] => (db, [])
  | attendance_id :: rest =>
      match update_attendance_status db attendance_id new_status with
      | (db1, .ok record) =>
          let out := bulk_update_loop db1 new_status rest
          (out.1, record :: out.2)
      | (db1, .error _) => bulk_update_loop db1 new_status rest

/-- AttendanceController.bulk_update_status: returns only the successfully
updated records. -/
def bulk_update_status (db : DB) (attendance_ids : List Nat)
    (new_status : AttendanceStatus) : DB × List AttendanceRecord :=
  bulk_update_loop db new_status attendance_ids

/-- Payload of SessionController.mark_attendance (the returned dict; the
marked_at timestamp is omitted). -/
structure MarkAttendanceResult where
  message : String
  student_id : Nat
  session_id : Nat
  status_value : String
deriving DecidableEq, Repr

/-- SessionController.mark_attendance. -/
def mark_attendance (db : DB) (share_code : String) (student_id : Nat) :
    DB × Except Err MarkAttendanceResult :=
  match db.sessions.find? (fun s => s.session_code == share_code) with
  | none => (db, .error ⟨404, "Invalid code. Session not found."⟩)
  | some session_obj =>
  if !session_obj.is_active then
    (db, .error ⟨400, "Session is closed. Cannot mark attendance."⟩)
  else
  match db.getTeacherModule session_obj.teacher_module_id with
  | none => (db, .error ⟨404, "Session module not found"⟩)
  | some teacher_module =>
  match db.enrollments.find? (fun e =>
      e.student_id == student_id && e.module_id == teacher_module.module_id) with
  | none => (db, .error ⟨404, "You are not enrolled in this module"⟩)
  | some enrollment =>
  if enrollment.is_excluded then
    (db, .error ⟨403, "You are excluded from this module"⟩)
  else
  match db.attendance_records.find? (fun r =>
      r.session_id == session_obj.id && r.enrollement_id == enrollment.id) with
  | none => (db, .error ⟨404, "Attendance record not found"⟩)
  | some attendance =>
  if attendance.status == AttendanceStatus.PRESENT then
    (db, .error ⟨400, "Attendance already marked as present"⟩)
  else
    let updated := { attendance with status := AttendanceStatus.PRESENT }
    let recs := db.attendance_records.map
      (fun r => if r.id == attendance.id then updated else r)
    ({ db with attendance_records := recs },
     .ok { message := "Attendance marked successfully",
           student_id := student_id,
           session_id := session_obj.id,
           status_value := "PRESENT" })

/-- Python round(x, 2) modelled on the rationals: round to two decimal
places (half cases do not arise at any value evaluated in this file). -/
def round2 (q : ℚ) : ℚ := (round (q * 100) : ℚ) / 100

/-- SessionController.close_session: the statistics dict of the response
(there is no excluded count in the source dict). -/
structure CloseSessionStats where
  session_id : Nat
  is_active : Bool
  total_students : Nat
  present : Nat
  absent : Nat
  attendance_rate : ℚ
deriving DecidableEq, Repr

/-- SessionController.close_session: the loop that, for each still-ABSENT
record of the session, increments number_of_absences on the owning
enrollment (an absent enrollment row is silently skipped, as in the
source's `if enrollment:`). -/
def apply_absences (enrollments : List Enrollment)
    (records : List AttendanceRecord) : List Enrollment :=
  records.foldl
    (fun ens r =>
      if r.status == AttendanceStatus.ABSENT then
        ens.map (fun e =>
          if e.id == r.enrollement_id then
            { e with number_of_absences := e.number_of_absences + 1 }
          else e)
      else ens)
    enrollments

/-- SessionController.close_session.  The ownership check dereferences
teacher_module without a None check; a missing assignment row would raise
AttributeError in Python, modelled as a 500 error. -/
def session_close_session (db : DB) (session_id teacher_id : Nat) :
    DB × Except Err CloseSessionStats :=
  match db.getSession session_id with
  | none =>
      (db, .error ⟨404, "Session with ID " ++ toString session_id
                    ++ " not found"⟩)
  | some session_obj =>
  if !session_obj.is_active then
    (db, .error ⟨400, "Session is already closed"⟩)
  else
  match db.getTeacherModule session_obj.teacher_module_id with
  | none => (db, .error ⟨500, "AttributeError"⟩)
  | some teacher_module =>
  if teacher_module.teacher_id != teacher_id then
    -- source detail text contains an apostrophe; shortened here
    (db, .error ⟨403, "You do not have permission to close this session"⟩)
  else
    let sessions1 := db.sessions.map
      (fun s => if s.id == session_id then { s with is_active := false } else s)
    let records := db.attendance_records.filter
      (fun r => r.session_id == session_id)
    let enrollments1 := apply_absences db.enrollments records
    let present :=
      (records.filter (fun r => r.status == AttendanceStatus.PRESENT)).length
    let absent :=
      (records.filter (fun r => r.status == AttendanceStatus.ABSENT)).length
    let total := records.length
    ({ db with sessions := sessions1, enrollments := enrollments1 },
     .ok { session_id := session_id,
           is_active := false,
           total_students := total,
           present := present,
           absent := absent,
           attendance_rate :=
             if total > 0 then round2 ((present : ℚ) / (total : ℚ) * 100)
             else 0 })

/-- TeacherController._verify_teacher_owns_session. -/
def verify_teacher_owns_session (db : DB) (session_obj : ClassSession)
    (teacher_id : Nat) : Bool :=
  match db.getTeacherModule session_obj.teacher_module_id with
  | none => false
  | some teacher_module => teacher_module.teacher_id == teacher_id

/-- Payload of TeacherController.close_session. -/
structure TeacherCloseResult where
  message : String
  session_id : Nat
  is_active : Bool
deriving DecidableEq, Repr

/-- TeacherController.close_session: verifies ownership, then the
already-closed guard, then flips the active flag only — it touches neither
attendance records nor enrollments. -/
def teacher_close_session (db : DB) (session_id teacher_id : Nat) :
    DB × Except Err TeacherCloseResult :=
  match db.getSession session_id with
  | none =>
      (db, .error ⟨404, "Session with ID " ++ toString session_id
                    ++ " not found"⟩)
  | some session_obj =>
  if !(verify_teacher_owns_session db session_obj teacher_id) then
    (db, .error ⟨403, "You do not have permission to close this session"⟩)
  else
  if !session_obj.is_active then
    (db, .error ⟨400, "Session is already closed"⟩)
  else
    let sessions1 := db.sessions.map
      (fun s => if s.id == session_id then { s with is_active := false } else s)
    ({ db with sessions := sessions1 },
     .ok { message := "Session closed successfully",
           session_id := session_id,
           is_active := false })

/-- EnrollmentController.make_excluded_from_module: sets the exclusion flag
and moves every ABSENT record of the enrollment to EXCLUDED. -/
def make_excluded_from_module (db : DB) (enrollment_id : Nat) :
    DB × Except Err Enrollment :=
  match db.getEnrollment enrollment_id with
  | none =>
      (db, .error ⟨404, "Enrollment with ID " ++ toString enrollment_id
                    ++ " not found"⟩)
  | some enrollment =>
  if enrollment.is_excluded then
    (db, .error ⟨400, "Student is already excluded from this module"⟩)
  else
    let updated := { enrollment with is_excluded := true }
    let ens := db.enrollments.map
      (fun e => if e.id == enrollment_id then updated else e)
    let recs := db.attendance_records.map (fun r =>
      if r.enrollement_id == enrollment_id
          && r.status == AttendanceStatus.ABSENT then
        { r with status := AttendanceStatus.EXCLUDED }
      else r)
    ({ db with enrollments := ens, attendance_records := recs }, .ok updated)

/-- EnrollmentController.enroll_student: an existing excluded enrollment is
reinstated, an existing active one is a 400, otherwise a fresh row is
created. -/
def enroll_student (db : DB) (student_id module_id : Nat) :
    DB × Except Err Enrollment :=
  match db.getStudent student_id with
  | none =>
      (db, .error ⟨404, "Student with ID " ++ toString student_id
                    ++ " not found"⟩)
  | some _ =>
  match db.getModule module_id with
  | none =>
      (db, .error ⟨404, "Module with ID " ++ toString module_id
                    ++ " not found"⟩)
  | some _ =>
  match db.enrollments.find? (fun e =>
      e.student_id == student_id && e.module_id == module_id) with
  | some existing =>
      if existing.is_excluded then
        let updated := { existing with is_excluded := false }
        let ens := db.enrollments.map
          (fun e => if e.id == existing.id then updated else e)
        ({ db with enrollments := ens }, .ok updated)
      else
        (db, .error ⟨400, "Student is already enrolled in this module"⟩)
  | none =>
      let enrollment : Enrollment :=
        { id := db.next_enrollment_id,
          student_id := student_id,
          module_id := module_id,
          number_of_absences := 0,
          number_of_absences_justified := 0,
          is_excluded := false,
          student_name := none,
          student_email := none }
      ({ db with enrollments := db.enrollments ++ [enrollment],
                 next_enrollment_id := db.next_enrollment_id + 1 },
       .ok enrollment)

/-- One entry of the failures list of bulk_enroll_students. -/
structure BulkEnrollFailure where
  student_id : Nat
  reason : String
deriving DecidableEq, Repr

/-- The summary dict returned by bulk_enroll_students. -/
structure BulkEnrollResult where
  module_id : Nat
  successful_enrollments : Nat
  failed_enrollments : Nat
  enrolled_students : List Nat
  failures : List BulkEnrollFailure
deriving DecidableEq, Repr

/-- EnrollmentController.bulk_enroll_students: the per-student loop, keeping
both the success list and the per-item failure list. -/
def bulk_enroll_loop (db : DB) (module_id : Nat) :
    List Nat → DB × List Nat × List BulkEnrollFailure
  | [] => (db, [], [])
  | student_id :: rest =>
      match enroll_student db student_id module_id with
      | (db1, .ok _) =>
          let out := bulk_enroll_loop db1 module_id rest
          (out.1, student_id :: out.2.1, out.2.2)
      | (db1, .error e) =>
          let out := bulk_enroll_loop db1 module_id rest
          (out.1, out.2.1, ⟨student_id, e.detail⟩ :: out.2.2)

/-- EnrollmentController.bulk_enroll_students. -/
def bulk_enroll_students (db : DB) (student_ids : List Nat) (module_id : Nat) :
    DB × Except Err BulkEnrollResult :=
  match db.getModule module_id with
  | none =>
      (db, .error ⟨404, "Module with ID " ++ toString module_id
                    ++ " not found"⟩)
  | some _ =>
      let out := bulk_enroll_loop db module_id student_ids
      (out.1,
       .ok { module_id := module_id,
             successful_enrollments := out.2.1.length,
             failed_enrollments := out.2.2.length,
             enrolled_students := out.2.1,
             failures := out.2.2 })

/-- TeacherController.create_session: the per-enrollment loop creating one
ABSENT attendance record per (non-excluded) enrollment, with sequential
autoincrement ids. -/
def new_session_records (session_id module_id first_id : Nat) :
    List Enrollment → List AttendanceRecord
  | [] => []
  | enrollment :: rest =>
      { id := first_id,
        status := AttendanceStatus.ABSENT,
        session_id := session_id,
        module_id := module_id,
        enrollement_id := enrollment.id,
        justification_id := none }
      :: new_session_records session_id module_id (first_id + 1) rest

/-- Payload of TeacherController.create_session (the fields the claims
talk about). -/
structure CreateSessionResult where
  session_id : Nat
  share_code : String
  is_active : Bool
  students_enrolled : Nat
deriving DecidableEq, Repr

/-- TeacherController.create_session.  generate_share_code draws six random
hex characters from a uuid; the generated code is therefore modelled as an
explicit argument. -/
def create_session (db : DB) (teacher_id module_id duration_minutes : Nat)
    (room : Option String) (share_code : String) :
    DB × Except Err CreateSessionResult :=
  match db.getTeacher teacher_id with
  | none =>
      (db, .error ⟨404, "Teacher with ID " ++ toString teacher_id
                    ++ " not found"⟩)
  | some _ =>
  match db.getModule module_id with
  | none =>
      (db, .error ⟨404, "Module with ID " ++ toString module_id
                    ++ " not found"⟩)
  | some module_row =>
  match db.teacher_modules.find? (fun t =>
      t.teacher_id == teacher_id && t.module_id == module_id) with
  | none => (db, .error ⟨403, "Teacher is not assigned to this module"⟩)
  | some teacher_module =>
    let session_room := match room with
      | some r => some r
      | none => module_row.room
    let new_session : ClassSession :=
      { id := db.next_session_id,
        session_code := share_code,
        room := session_room,
        duration_minutes := duration_minutes,
        is_active := true,
        teacher_module_id := teacher_module.id }
    let enrollments := db.enrollments.filter (fun e =>
      e.module_id == module_id && e.is_excluded == false)
    let records :=
      new_session_records new_session.id module_id db.next_attendance_id
        enrollments
    ({ db with sessions := db.sessions ++ [new_session],
               next_session_id := db.next_session_id + 1,
               attendance_records := db.attendance_records ++ records,
               next_attendance_id := db.next_attendance_id + records.length },
     .ok { session_id := new_session.id,
           share_code := share_code,
           is_active := true,
           students_enrolled := records.length })

/-- NotificationController.create_notification: verifies the user exists
(404 otherwise), then appends the row. -/
def create_notification (db : DB) (user_id : Nat) (title message : String)
    (ntype : NotificationType) : DB × Except Err Notification :=
  match db.getUser user_id with
  | none =>
      (db, .error ⟨404, "User with ID " ++ toString user_id ++ " not found"⟩)
  | some _ =>
      let notification : Notification :=
        { id := db.next_notification_id,
          user_id := user_id,
          title := title,
          message := message,
          ntype := ntype,
          is_read := false }
      ({ db with notifications := db.notifications ++ [notification],
                 next_notification_id := db.next_notification_id + 1 },
       .ok notification)

/-- StudentController.justify_absence: ownership and ABSENT checks, the
uniqueness check on the record's justification, creation of the PENDING
justification, and the back-reference written onto the attendance record.
The trailing notification call happens after the commit, so its 404 (user
row missing) leaves the already-committed mutation in place. -/
def justify_absence (db : DB) (student_id attendance_record_id : Nat)
    (comment : String) (file_url : Option String) :
    DB × Except Err Justification :=
  match db.getStudent student_id with
  | none =>
      (db, .error ⟨404, "Student with ID " ++ toString student_id
                    ++ " not found"⟩)
  | some student =>
  match db.getAttendanceRecord attendance_record_id with
  | none =>
      (db, .error ⟨404, "Attendance record with ID "
                    ++ toString attendance_record_id ++ " not found"⟩)
  | some attendance =>
  match db.getEnrollment attendance.enrollement_id with
  | none => (db, .error ⟨403, "This attendance record does not belong to you"⟩)
  | some enrollment =>
  if enrollment.student_id != student_id then
    (db, .error ⟨403, "This attendance record does not belong to you"⟩)
  else
  if attendance.status != AttendanceStatus.ABSENT then
    (db, .error ⟨400, "Can only justify absences"⟩)
  else
  match db.justifications.find? (fun j =>
      j.attendance_record_id == attendance_record_id) with
  | some _ => (db, .error ⟨400, "A justification already exists for this absence"⟩)
  | none =>
    let justification : Justification :=
      { id := db.next_justification_id,
        attendance_record_id := attendance_record_id,
        comment := some comment,
        file_url := file_url,
        status := JustificationStatus.PENDING }
    let recs := db.attendance_records.map (fun r =>
      if r.id == attendance_record_id then
        { r with justification_id := some justification.id }
      else r)
    let db1 :=
      { db with justifications := db.justifications ++ [justification],
                next_justification_id := db.next_justification_id + 1,
                attendance_records := recs }
    match create_notification db1 student.user_id "Justification Submitted"
        ("Your justification for attendance record #"
          ++ toString attendance_record_id
          ++ " has been submitted and is pending review.")
        NotificationType.JUSTIFICATION_SUBMITTED with
    | (db2, .ok _) => (db2, .ok justification)
    | (db2, .error e) => (db2, .error e)

/-- JustificationController.approve: PENDING guard, flips the justification
to APPROVED, then walks justification → attendance record → enrollment →
student to notify; a broken link only skips the notification. -/
def justification_approve (db : DB) (justification_id : Nat) :
    DB × Except Err Justification :=
  match db.getJustification justification_id with
  | none =>
      (db, .error ⟨404, "Justification with ID " ++ toString justification_id
                    ++ " not found"⟩)
  | some justification =>
  if justification.status != JustificationStatus.PENDING then
    (db, .error ⟨400, "Justification has already been "
                  ++ justification.status.value⟩)
  else
    let updated := { justification with status := JustificationStatus.APPROVED }
    let justs := db.justifications.map
      (fun j => if j.id == justification_id then updated else j)
    let db1 := { db with justifications := justs }
    match db1.getAttendanceRecord justification.attendance_record_id with
    | none => (db1, .ok updated)
    | some attendance_record =>
    match db1.getEnrollment attendance_record.enrollement_id with
    | none => (db1, .ok updated)
    | some enrollment =>
    match db1.getStudent enrollment.student_id with
    | none => (db1, .ok updated)
    | some student =>
    match create_notification db1 student.user_id "Justification Approved"
        ("Your justification for attendance record #"
          ++ toString justification.attendance_record_id
          ++ " has been approved.")
        NotificationType.JUSTIFICATION_APPROVED with
    | (db2, .ok _) => (db2, .ok updated)
    | (db2, .error e) => (db2, .error e)

/-- JustificationController.reject: PENDING guard, flips the justification
to REJECTED, leaves the attendance record untouched, then notifies. -/
def justification_reject (db : DB) (justification_id : Nat) :
    DB × Except Err Justification :=
  match db.getJustification justification_id with
  | none =>
      (db, .error ⟨404, "Justification with ID " ++ toString justification_id
                    ++ " not found"⟩)
  | some justification =>
  if justification.status != JustificationStatus.PENDING then
    (db, .error ⟨400, "Justification has already been "
                  ++ justification.status.value⟩)
  else
    let updated := { justification with status := JustificationStatus.REJECTED }
    let justs := db.justifications.map
      (fun j => if j.id == justification_id then updated else j)
    let db1 := { db with justifications := justs }
    match db1.getAttendanceRecord justification.attendance_record_id with
    | none => (db1, .ok updated)
    | some attendance_record =>
    match db1.getEnrollment attendance_record.enrollement_id with
    | none => (db1, .ok updated)
    | some enrollment =>
    match db1.getStudent enrollment.student_id with
    | none => (db1, .ok updated)
    | some student =>
    match create_notification db1 student.user_id "Justification Rejected"
        ("Your justification for attendance record #"
          ++ toString justification.attendance_record_id
          ++ " has been rejected.")
        NotificationType.JUSTIFICATION_REJECTED with
    | (db2, .ok _) => (db2, .ok updated)
    | (db2, .error e) => (db2, .error e)

/-- Payload of TeacherController.validate_justification (the fields the
claims talk about; the student/module/session info blocks of the response
are read-only projections and are omitted). -/
structure ValidateJustificationResult where
  message : String
  justification_status : JustificationStatus
  attendance_status : AttendanceStatus
deriving DecidableEq, Repr

/-- TeacherController.validate_justification: decision validation, PENDING
guard, traversal justification → attendance record → session, ownership
check, then delegation to approve/reject; on approve the attendance record
fetched before the delegation is set to PRESENT and committed.  The source
first lowercases the request's decision string (decision.lower()); the
model takes the lowercased string as the argument. -/
def validate_justification (db : DB) (justification_id teacher_id : Nat)
    (decision_lower : String) : DB × Except Err ValidateJustificationResult :=
  if !(decision_lower == "approve" || decision_lower == "reject") then
    -- source detail text quotes the two words; quotes dropped here
    (db, .error ⟨400, "Decision must be approve or reject"⟩)
  else
  match db.getJustification justification_id with
  | none =>
      (db, .error ⟨404, "Justification with ID " ++ toString justification_id
                    ++ " not found"⟩)
  | some justification =>
  if justification.status != JustificationStatus.PENDING then
    (db, .error ⟨400, "Justification has already been "
                  ++ justification.status.value⟩)
  else
  match db.getAttendanceRecord justification.attendance_record_id with
  | none => (db, .error ⟨404, "Attendance record not found for this justification"⟩)
  | some attendance_record =>
  match db.getSession attendance_record.session_id with
  | none => (db, .error ⟨404, "Session not found for this attendance record"⟩)
  | some session_obj =>
  if !(verify_teacher_owns_session db session_obj teacher_id) then
    (db, .error ⟨403, "You do not have permission to validate this justification"⟩)
  else
  if decision_lower == "approve" then
    match justification_approve db justification_id with
    | (db1, .error e) => (db1, .error e)
    | (db1, .ok updated) =>
        let record1 := { attendance_record with
                           status := AttendanceStatus.PRESENT }
        let recs := db1.attendance_records.map
          (fun r => if r.id == attendance_record.id then record1 else r)
        ({ db1 with attendance_records := recs },
         .ok { message := "Justification has been approved successfully",
               justification_status := updated.status,
               attendance_status := record1.status })
  else
    match justification_reject db justification_id with
    | (db1, .error e) => (db1, .error e)
    | (db1, .ok updated) =>
        (db1,
         .ok { message := "Justification has been rejected successfully",
               justification_status := updated.status,
               attendance_status := attendance_record.status })

/-
  Specification-side definitions and concrete stores used by the
  theorems below.
-/

/-- The allow-list of the claim, written from the spec text (section 4.3):
ABSENT→PRESENT, ABSENT→EXCLUDED, PRESENT→ABSENT, EXCLUDED→ABSENT. -/
def spec_allowed_transitions : List (AttendanceStatus × AttendanceStatus) :=
  [(.ABSENT, .PRESENT), (.ABSENT, .EXCLUDED),
   (.PRESENT, .ABSENT), (.EXCLUDED, .ABSENT)]

/-- A one-record store used to exercise the C1 theorem. -/
def db_c1 : DB :=
  { users := [], students := [], teachers := [], modules := [],
    teacher_modules := [],
    enrollments := [⟨1, 1, 1, 0, 0, false, none, none⟩],
    sessions := [⟨1, "ABC123", none, 90, true, 1⟩],
    attendance_records := [⟨1, .ABSENT, 1, 1, 1, none⟩],
    justifications := [], notifications := [],
    next_enrollment_id := 2, next_session_id := 2, next_attendance_id := 2,
    next_justification_id := 1, next_notification_id := 1 }

/-- A store with one closed session owned by teacher 1, to exercise C3. -/
def db_c3 : DB :=
  { users := [], students := [], teachers := [⟨1⟩], modules := [],
    teacher_modules := [⟨1, 1, 1⟩],
    enrollments := [⟨1, 1, 1, 3, 0, false, none, none⟩],
    sessions := [⟨1, "ABC123", none, 90, false, 1⟩],
    attendance_records := [⟨1, .ABSENT, 1, 1, 1, none⟩],
    justifications := [], notifications := [],
    next_enrollment_id := 2, next_session_id := 2, next_attendance_id := 2,
    next_justification_id := 1, next_notification_id := 1 }

/-- A store with one open session owned by teacher 1, to exercise C10. -/
def db_c10 : DB :=
  { users := [], students := [], teachers := [⟨1⟩], modules := [],
    teacher_modules := [⟨1, 1, 1⟩],
    enrollments := [⟨1, 1, 1, 3, 0, false, none, none⟩],
    sessions := [⟨1, "ABC123", none, 90, true, 1⟩],
    attendance_records := [⟨1, .ABSENT, 1, 1, 1, none⟩],
    justifications := [], notifications := [],
    next_enrollment_id := 2, next_session_id := 2, next_attendance_id := 2,
    next_justification_id := 1, next_notification_id := 1 }

/-- db_c10 after the close: only the active flag differs. -/
def db_c10_closed : DB :=
  { db_c10 with sessions := [⟨1, "ABC123", none, 90, false, 1⟩] }

/-- Abbreviation for the records of one session (the `.all()` result that
close_session iterates over). -/
def session_records (db : DB) (session_id : Nat) : List AttendanceRecord :=
  db.attendance_records.filter (fun r => r.session_id == session_id)

/-- How many ABSENT records of `records` belong to enrollment `eid`:
the number of increments close_session applies to that enrollment. -/
def absent_count_for (records : List AttendanceRecord) (eid : Nat) : Nat :=
  (records.filter (fun r =>
    r.status == AttendanceStatus.ABSENT && eid == r.enrollement_id)).length

/-- A store with one open session over two enrollments, one record PRESENT
and one ABSENT, to exercise C2. -/
def db_c2 : DB :=
  { users := [], students := [], teachers := [⟨1⟩],
    modules := [⟨1, "Algo", none⟩],
    teacher_modules := [⟨1, 1, 1⟩],
    enrollments := [⟨1, 1, 1, 0, 0, false, none, none⟩,
                    ⟨2, 2, 1, 0, 0, false, none, none⟩],
    sessions := [⟨1, "ABC123", none, 90, true, 1⟩],
    attendance_records := [⟨1, .PRESENT, 1, 1, 1, none⟩,
                           ⟨2, .ABSENT, 1, 1, 2, none⟩],
    justifications := [], notifications := [],
    next_enrollment_id := 3, next_session_id := 2, next_attendance_id := 3,
    next_justification_id := 1, next_notification_id := 1 }

/-- The enrollment query of create_session: currently-enrolled, not
excluded, for the module. -/
def enrolled_for (db : DB) (module_id : Nat) : List Enrollment :=
  db.enrollments.filter (fun e =>
    e.module_id == module_id && e.is_excluded == false)

/-- A store with five non-excluded enrollments and one excluded one in
module 1, to exercise C6 (Scenario A). -/
def db_c6 : DB :=
  { users := [], students := [], teachers := [⟨1⟩],
    modules := [⟨1, "Algo", none⟩],
    teacher_modules := [⟨1, 1, 1⟩],
    enrollments := [⟨1, 1, 1, 0, 0, false, none, none⟩,
                    ⟨2, 2, 1, 0, 0, false, none, none⟩,
                    ⟨3, 3, 1, 0, 0, false, none, none⟩,
                    ⟨4, 4, 1, 0, 0, false, none, none⟩,
                    ⟨5, 5, 1, 0, 0, false, none, none⟩,
                    ⟨6, 6, 1, 0, 0, true, none, none⟩],
    sessions := [], attendance_records := [],
    justifications := [], notifications := [],
    next_enrollment_id := 7, next_session_id := 1, next_attendance_id := 1,
    next_justification_id := 1, next_notification_id := 1 }

/-- A store with a PRESENT attendance record (so PRESENT→EXCLUDED fails),
one existing student and module, to exercise C9. -/
def db_c9 : DB :=
  { users := [⟨10⟩], students := [⟨1, 10⟩], teachers := [⟨1⟩],
    modules := [⟨1, "Algo", none⟩],
    teacher_modules := [⟨1, 1, 1⟩],
    enrollments := [],
    sessions := [⟨1, "ABC123", none, 90, true, 1⟩],
    attendance_records := [⟨1, .PRESENT, 1, 1, 1, none⟩],
    justifications := [], notifications := [],
    next_enrollment_id := 1, next_session_id := 2, next_attendance_id := 2,
    next_justification_id := 1, next_notification_id := 1 }

/-- A store with an open session whose module has no enrollment for
student 2, to exercise the C5 counterexample. -/
def db_c5 : DB :=
  { users := [], students := [], teachers := [⟨1⟩],
    modules := [⟨1, "Algo", none⟩],
    teacher_modules := [⟨1, 1, 1⟩],
    enrollments := [],
    sessions := [⟨1, "ABC123", none, 90, true, 1⟩],
    attendance_records := [],
    justifications := [], notifications := [],
    next_enrollment_id := 1, next_session_id := 2, next_attendance_id := 1,
    next_justification_id := 1, next_notification_id := 1 }

/-- A store with an open session, an enrolled student 1 and that student's
ABSENT record, to exercise the C5 success path. -/
def db_c5w : DB :=
  { users := [⟨10⟩], students := [⟨1, 10⟩], teachers := [⟨1⟩],
    modules := [⟨1, "Algo", none⟩],
    teacher_modules := [⟨1, 1, 1⟩],
    enrollments := [⟨1, 1, 1, 0, 0, false, none, none⟩],
    sessions := [⟨1, "ABC123", none, 90, true, 1⟩],
    attendance_records := [⟨1, .ABSENT, 1, 1, 1, none⟩],
    justifications := [], notifications := [],
    next_enrollment_id := 2, next_session_id := 2, next_attendance_id := 2,
    next_justification_id := 1, next_notification_id := 1 }

/-- A store with an ABSENT record owned by student 1 (enrollment 1), and a
second student 2 who does not own it, to exercise C8. -/
def db_c8 : DB :=
  { users := [⟨10⟩, ⟨20⟩], students := [⟨1, 10⟩, ⟨2, 20⟩], teachers := [⟨1⟩],
    modules := [⟨1, "Algo", none⟩],
    teacher_modules := [⟨1, 1, 1⟩],
    enrollments := [⟨1, 1, 1, 0, 0, false, none, none⟩],
    sessions := [⟨1, "ABC123", none, 90, true, 1⟩],
    attendance_records := [⟨1, .ABSENT, 1, 1, 1, none⟩],
    justifications := [], notifications := [],
    next_enrollment_id := 2, next_session_id := 2, next_attendance_id := 2,
    next_justification_id := 1, next_notification_id := 1 }

/-- The store db_c8 right after student 1 submitted the justification for
record 1: the PENDING justification, the back-reference and the submission
notification are in place.  Used by the C4 round-trip witness. -/
def db_c4w : DB :=
  { users := [⟨10⟩, ⟨20⟩], students := [⟨1, 10⟩, ⟨2, 20⟩], teachers := [⟨1⟩],
    modules := [⟨1, "Algo", none⟩],
    teacher_modules := [⟨1, 1, 1⟩],
    enrollments := [⟨1, 1, 1, 0, 0, false, none, none⟩],
    sessions := [⟨1, "ABC123", none, 90, true, 1⟩],
    attendance_records := [⟨1, .ABSENT, 1, 1, 1, some 1⟩],
    justifications := [⟨1, 1, some "sick", none, .PENDING⟩],
    notifications := [⟨1, 10, "Justification Submitted",
      "Your justification for attendance record #1 has been submitted and is pending review.",
      .JUSTIFICATION_SUBMITTED, false⟩],
    next_enrollment_id := 2, next_session_id := 2, next_attendance_id := 2,
    next_justification_id := 2, next_notification_id := 2 }

/-
  Shared helper lemmas.
-/

/-- Every input student id of the bulk-enroll loop lands in exactly one of
the two output lists: the loop never aborts on a failing item. -/
theorem bulk_enroll_loop_coverage (module_id : Nat) :
    ∀ (ids : List Nat) (db : DB),
      (bulk_enroll_loop db module_id ids).2.1.length
          + (bulk_enroll_loop db module_id ids).2.2.length = ids.length
      ∧ ∀ sid ∈ ids,
          sid ∈ (bulk_enroll_loop db module_id ids).2.1
          ∨ ∃ f ∈ (bulk_enroll_loop db module_id ids).2.2,
              f.student_id = sid := by
  intro ids
  induction ids with
  | nil => intro db; exact ⟨rfl, by intro sid h; simp at h⟩
  | cons sid rest ih =>
      intro db
      match henr : enroll_student db sid module_id with
      | (db1, .ok e) =>
          have hloop : bulk_enroll_loop db module_id (sid :: rest)
              = ((bulk_enroll_loop db1 module_id rest).1,
                 sid :: (bulk_enroll_loop db1 module_id rest).2.1,
                 (bulk_enroll_loop db1 module_id rest).2.2) := by
            simp [bulk_enroll_loop, henr]
          rw [hloop]
          obtain ⟨ihlen, ihcov⟩ := ih db1
          refine ⟨by simpa using congrArg (· + 1) ihlen ▸ (by omega), ?_⟩
          intro x hx
          rcases List.mem_cons.mp hx with hx | hx
          · exact Or.inl (by simp [hx])
          · rcases ihcov x hx with hc | hc
            · exact Or.inl (List.mem_cons_of_mem _ hc)
            · exact Or.inr hc
      | (db1, .error e) =>
          have hloop : bulk_enroll_loop db module_id (sid :: rest)
              = ((bulk_enroll_loop db1 module_id rest).1,
                 (bulk_enroll_loop db1 module_id rest).2.1,
                 ⟨sid, e.detail⟩
                   :: (bulk_enroll_loop db1 module_id rest).2.2) := by
            simp [bulk_enroll_loop, henr]
          rw [hloop]
          obtain ⟨ihlen, ihcov⟩ := ih db1
          refine ⟨by simp; omega, ?_⟩
          intro x hx
          rcases List.mem_cons.mp hx with hx | hx
          · exact Or.inr ⟨⟨sid, e.detail⟩, by simp, by simp [hx]⟩
          · rcases ihcov x hx with hc | hc
            · exact Or.inl hc
            · rcases hc with ⟨f, hf, hfs⟩
              exact Or.inr ⟨f, List.mem_cons_of_mem _ hf, hfs⟩

/-- new_session_records creates one record per enrollment. -/
theorem new_session_records_length (sid mid : Nat) :
    ∀ (fid : Nat) (ens : List Enrollment),
      (new_session_records sid mid fid ens).length = ens.length := by
  intro fid ens
  induction ens generalizing fid with
  | nil => rfl
  | cons a t ih => simp [new_session_records, ih]

/-- The records of new_session_records point at the given enrollments, in
order. -/
theorem new_session_records_map_eid (sid mid : Nat) :
    ∀ (fid : Nat) (ens : List Enrollment),
      (new_session_records sid mid fid ens).map (fun r => r.enrollement_id)
        = ens.map (fun e => e.id) := by
  intro fid ens
  induction ens generalizing fid with
  | nil => rfl
  | cons a t ih => simp [new_session_records, ih]

/-- Every record of new_session_records is ABSENT and belongs to the new
session. -/
theorem new_session_records_status (sid mid : Nat) :
    ∀ (fid : Nat) (ens : List Enrollment) (r : AttendanceRecord),
      r ∈ new_session_records sid mid fid ens →
        r.status = AttendanceStatus.ABSENT ∧ r.session_id = sid := by
  intro fid ens
  induction ens generalizing fid with
  | nil => intro r h; simp [new_session_records] at h
  | cons a t ih =>
      intro r h
      simp only [new_session_records, List.mem_cons] at h
      cases h with
      | inl h => subst h; exact ⟨rfl, rfl⟩
      | inr h => exact ih (fid + 1) r h

/-- Adding zero absences to every enrollment is the identity. -/
theorem enrollments_map_add_zero (ens : List Enrollment) :
    ens.map (fun e =>
      { e with number_of_absences := e.number_of_absences + 0 }) = ens := by
  induction ens with
  | nil => rfl
  | cons a t ih =>
      simp only [List.map]
      rw [ih]
      rfl

/-- The absence-increment loop of close_session adds, to every enrollment
row, exactly the number of ABSENT records that name it. -/
theorem apply_absences_eq (records : List AttendanceRecord) :
    ∀ ens : List Enrollment,
      apply_absences ens records
        = ens.map (fun e => { e with number_of_absences :=
            e.number_of_absences + absent_count_for records e.id }) := by
  induction records with
  | nil =>
      intro ens
      simp only [apply_absences, List.foldl_nil, absent_count_for,
        List.filter_nil, List.length_nil]
      exact (enrollments_map_add_zero ens).symm
  | cons r rest ih =>
      intro ens
      have step : apply_absences ens (r :: rest)
          = apply_absences
              (if r.status == AttendanceStatus.ABSENT then
                ens.map (fun e =>
                  if e.id == r.enrollement_id then
                    { e with number_of_absences := e.number_of_absences + 1 }
                  else e)
              else ens) rest := rfl
      rw [step]
      by_cases hr : (r.status == AttendanceStatus.ABSENT) = true
      · rw [if_pos hr, ih, List.map_map]
        congr 1
        funext e
        by_cases he : (e.id == r.enrollement_id) = true
        · have hpred : (r.status == AttendanceStatus.ABSENT
              && e.id == r.enrollement_id) = true := by simp [hr, he]
          simp only [Function.comp, if_pos he, absent_count_for,
            List.filter_cons, hpred, if_true, List.length_cons]
          have harith : e.number_of_absences + 1
                + (List.filter (fun x => x.status == AttendanceStatus.ABSENT
                    && e.id == x.enrollement_id) rest).length
              = e.number_of_absences
                + ((List.filter (fun x => x.status == AttendanceStatus.ABSENT
                    && e.id == x.enrollement_id) rest).length + 1) := by
            omega
          rw [harith]
        · have hpred : (r.status == AttendanceStatus.ABSENT
              && e.id == r.enrollement_id) = false := by simp [he]
          simp only [Function.comp, if_neg he, absent_count_for,
            List.filter_cons, hpred, if_false]
          simp
      · rw [if_neg hr, ih]
        congr 1
        funext e
        have hr2 : (r.status == AttendanceStatus.ABSENT) = false := by
          simpa using hr
        have hpred : (r.status == AttendanceStatus.ABSENT
            && e.id == r.enrollement_id) = false := by simp [hr2]
        simp [absent_count_for, List.filter_cons, hpred]

/-- Updating a keyed list at the key of the row that `find?` returns makes
`find?` return the replacement, for any search predicate satisfied by the
replacement. -/
theorem find?_update_by_key {α : Type} (key : α → Nat) (k : Nat)
    (q : α → Bool) :
    ∀ (l : List α) (x upd : α), l.find? q = some x → q upd = true →
      key x = k →
      (l.map (fun r => if key r == k then upd else r)).find? q = some upd := by
  intro l
  induction l with
  | nil => intro x upd h _ _; simp at h
  | cons a t ih =>
      intro x upd h hq hkey
      by_cases hqa : q a = true
      · rw [List.find?_cons_of_pos _ hqa] at h
        injection h with h
        subst h
        have hhead : (if (key a == k) = true then upd else a) = upd := by
          simp [hkey]
        simp only [List.map]
        rw [hhead]
        exact List.find?_cons_of_pos _ hq
      · have hqa2 : q a = false := by simpa using hqa
        rw [List.find?_cons_of_neg _ (by simp [hqa2])] at h
        simp only [List.map]
        by_cases hk : key a = k
        · have hhead : (if (key a == k) = true then upd else a) = upd := by
            simp [hk]
          rw [hhead]
          exact List.find?_cons_of_pos _ hq
        · have hhead : (if (key a == k) = true then upd else a) = a := by
            simp [hk]
          rw [hhead]
          rw [List.find?_cons_of_neg _ (by simp [hqa2])]
          exact ih x upd h hq hkey

/-- Mapping a conditional self-update over a keyed list: `find?` returns
the update of the row it used to return, provided the update preserves the
search predicate. -/
theorem find?_map_self_update {α : Type} (p : α → Bool) (f : α → α)
    (hf : ∀ a, p (f a) = p a) :
    ∀ (l : List α) (x : α), l.find? p = some x →
      (l.map (fun a => if p a then f a else a)).find? p = some (f x) := by
  intro l
  induction l with
  | nil => intro x h; simp at h
  | cons a t ih =>
      intro x h
      by_cases hpa : p a = true
      · rw [List.find?_cons_of_pos _ hpa] at h
        injection h with h
        subst h
        simp only [List.map, if_pos hpa]
        exact List.find?_cons_of_pos _ ((hf a).trans hpa)
      · have hpa2 : p a = false := by simpa using hpa
        rw [List.find?_cons_of_neg _ (by simp [hpa2])] at h
        simp only [List.map, if_neg hpa]
        rw [List.find?_cons_of_neg _ (by simp [hpa2])]
        exact ih x h

/-- create_notification only touches the notifications table (and its
counter), whether it succeeds or 404s on the user. -/
theorem create_notification_frame (dbX dbY : DB) (uid : Nat) (t m : String)
    (ty : NotificationType) (res : Except Err Notification)
    (h : create_notification dbX uid t m ty = (dbY, res)) :
    dbY.attendance_records = dbX.attendance_records
    ∧ dbY.justifications = dbX.justifications
    ∧ dbY.sessions = dbX.sessions
    ∧ dbY.enrollments = dbX.enrollments := by
  unfold create_notification at h
  split at h
  · injection h with h1 _
    subst h1
    exact ⟨rfl, rfl, rfl, rfl⟩
  · injection h with h1 _
    subst h1
    exact ⟨rfl, rfl, rfl, rfl⟩

/-- Inversion of a successful justify_absence: the submitted-against record
existed and was ABSENT, the created justification is the returned PENDING
row, and the store's records only gained the back-reference. -/
theorem justify_absence_ok_inversion (db0 db : DB) (student_id arid : Nat)
    (comment : String) (file_url : Option String) (j : Justification)
    (h : justify_absence db0 student_id arid comment file_url = (db, .ok j)) :
    j = ⟨db0.next_justification_id, arid, some comment, file_url, .PENDING⟩
    ∧ ∃ ar0, db0.getAttendanceRecord arid = some ar0
      ∧ ar0.status = AttendanceStatus.ABSENT
      ∧ db.attendance_records = db0.attendance_records.map (fun r =>
          if r.id == arid then
            { r with justification_id := some db0.next_justification_id }
          else r) := by
  unfold justify_absence at h
  split at h
  · simp at h
  · split at h
    · simp at h
    · split at h
      · simp at h
      · split at h
        · simp at h
        · split at h
          · simp at h
          · split at h
            · simp at h
            · rename_i ar0 har0 enopt en0 hen0 hguard hstatus jopt hjfind
              dsimp only at h
              split at h
              · rename_i pairx db2 notif hnotif
                injection h with h1 h2
                injection h2 with h2
                subst h1
                refine ⟨h2.symm, ar0, har0, by simpa using hstatus, ?_⟩
                exact (create_notification_frame _ _ _ _ _ _ _ hnotif).1
              · simp at h

/-
  Claim C1.
-/

/-- The code transition table agrees with the allow-list of the spec. -/
theorem valid_transitions_eq_spec (src tgt : AttendanceStatus) :
    tgt ∈ valid_transitions src ↔ (src, tgt) ∈ spec_allowed_transitions := by
  cases src <;> cases tgt <;> decide

/-- Claim C1: update_attendance_status succeeds exactly on the pairs of the
allow-list {ABSENT→PRESENT, ABSENT→EXCLUDED, PRESENT→ABSENT,
EXCLUDED→ABSENT}; on success the record carries the requested status, and
on any other pair it fails with a 400 error whose detail names the rejected
source/target pair and the store is unchanged. -/
theorem update_status_transition_table (db : DB) (attendance_id : Nat)
    (record : AttendanceRecord) (new_status : AttendanceStatus)
    (hfind : db.getAttendanceRecord attendance_id = some record) :
    ((∃ db1 r, update_attendance_status db attendance_id new_status
        = (db1, .ok r))
      ↔ (record.status, new_status) ∈ spec_allowed_transitions)
    ∧ (∀ db1 r, update_attendance_status db attendance_id new_status
        = (db1, .ok r) →
        r = { record with status := new_status }
        ∧ db1.getAttendanceRecord attendance_id = some r)
    ∧ (∀ db1 e, update_attendance_status db attendance_id new_status
        = (db1, .error e) →
        db1 = db ∧ e.status_code = 400
        ∧ e.detail = transition_err_detail record.status new_status) := by
  have hfind2 : List.find? (fun r => r.id == attendance_id)
      db.attendance_records = some record := hfind
  have hid0 := List.find?_some hfind2
  have hid : (record.id == attendance_id) = true := hid0
  have hideq : record.id = attendance_id := by simpa using hid
  by_cases hmem : new_status ∈ valid_transitions record.status
  · refine ⟨?_, ?_, ?_⟩
    · rw [← valid_transitions_eq_spec]
      constructor
      · intro _; exact hmem
      · intro _
        match hres : update_attendance_status db attendance_id new_status with
        | (db1, .ok r) => exact ⟨db1, r, rfl⟩
        | (db1, .error e) =>
            simp [update_attendance_status, hfind, hmem] at hres
    · intro db1 r h
      simp only [update_attendance_status, hfind, if_pos hmem] at h
      injection h with h1 h2
      injection h2 with h2
      subst h2
      refine ⟨rfl, ?_⟩
      subst h1
      exact find?_update_by_key AttendanceRecord.id attendance_id
        (fun r => r.id == attendance_id)
        db.attendance_records record { record with status := new_status }
        hfind2 hid hideq
    · intro db1 e h
      simp [update_attendance_status, hfind, hmem] at h
  · refine ⟨?_, ?_, ?_⟩
    · rw [← valid_transitions_eq_spec]
      constructor
      · intro ⟨db1, r, h⟩
        simp [update_attendance_status, hfind, hmem] at h
      · intro hc; exact absurd hc hmem
    · intro db1 r h
      simp [update_attendance_status, hfind, hmem] at h
    · intro db1 e h
      simp only [update_attendance_status, hfind, if_neg hmem] at h
      injection h with h1 h2
      injection h2 with h2
      exact ⟨h1.symm, by rw [← h2], by rw [← h2]⟩

/-- Witness for C1 at a concrete store: the single record is found, and the
theorem instantiates on it for the request ABSENT→PRESENT. -/
theorem update_status_transition_table_witness :
    db_c1.getAttendanceRecord 1 = some ⟨1, .ABSENT, 1, 1, 1, none⟩
    ∧ ((∃ db1 r, update_attendance_status db_c1 1 .PRESENT = (db1, .ok r))
        ↔ (AttendanceStatus.ABSENT, AttendanceStatus.PRESENT)
            ∈ spec_allowed_transitions) :=
  ⟨by decide,
   (update_status_transition_table db_c1 1 ⟨1, .ABSENT, 1, 1, 1, none⟩
     .PRESENT (by decide)).1⟩

/-
  Claim C3.
-/

/-- Claim C3: closing an already-closed session fails with the
InvalidState error (400, session already closed) through both close paths,
and the store is returned unchanged: the guard fires before any mutation.
The SessionController path checks the closed flag before ownership; the
TeacherController path checks ownership first, so its guard is stated under
the ownership hypothesis. -/
theorem close_session_idempotence_guard (db : DB)
    (session_id teacher_id : Nat) (s : ClassSession)
    (hsess : db.getSession session_id = some s)
    (hclosed : s.is_active = false) :
    session_close_session db session_id teacher_id
      = (db, .error ⟨400, "Session is already closed"⟩)
    ∧ (verify_teacher_owns_session db s teacher_id = true →
        teacher_close_session db session_id teacher_id
          = (db, .error ⟨400, "Session is already closed"⟩)) := by
  constructor
  · simp [session_close_session, hsess, hclosed]
  · intro hown
    simp [teacher_close_session, hsess, hown, hclosed]

/-- Witness for C3 at a concrete closed session. -/
theorem close_session_idempotence_guard_witness :
    db_c3.getSession 1 = some ⟨1, "ABC123", none, 90, false, 1⟩
    ∧ (ClassSession.is_active ⟨1, "ABC123", none, 90, false, 1⟩) = false
    ∧ session_close_session db_c3 1 1
        = (db_c3, .error ⟨400, "Session is already closed"⟩)
    ∧ teacher_close_session db_c3 1 1
        = (db_c3, .error ⟨400, "Session is already closed"⟩) := by
  have h := close_session_idempotence_guard db_c3 1 1
    ⟨1, "ABC123", none, 90, false, 1⟩ (by decide) (by decide)
  exact ⟨by decide, by decide, h.1, h.2 (by decide)⟩

/-
  Claim C10.
-/

/-- Claim C10: a successful TeacherController.close_session changes only
the session's active flag: every other table of the store, in particular
the attendance records and the enrollments with their absence counters, is
returned exactly as it was. -/
theorem teacher_close_session_frame (db db1 : DB)
    (session_id teacher_id : Nat) (r : TeacherCloseResult)
    (h : teacher_close_session db session_id teacher_id = (db1, .ok r)) :
    db1.users = db.users ∧ db1.students = db.students
    ∧ db1.teachers = db.teachers ∧ db1.modules = db.modules
    ∧ db1.teacher_modules = db.teacher_modules
    ∧ db1.enrollments = db.enrollments
    ∧ db1.attendance_records = db.attendance_records
    ∧ db1.justifications = db.justifications
    ∧ db1.notifications = db.notifications
    ∧ db1.sessions = db.sessions.map
        (fun s => if s.id == session_id then { s with is_active := false }
                  else s) := by
  unfold teacher_close_session at h
  split at h
  · simp at h
  · split at h
    · simp at h
    · split at h
      · simp at h
      · simp only [Prod.mk.injEq] at h
        obtain ⟨h1, _⟩ := h
        subst h1
        exact ⟨rfl, rfl, rfl, rfl, rfl, rfl, rfl, rfl, rfl, rfl⟩

/-- Witness for C10: the concrete close succeeds and the theorem yields the
frame facts for the attendance records and the enrollments. -/
theorem teacher_close_session_frame_witness :
    teacher_close_session db_c10 1 1
      = (db_c10_closed, .ok ⟨"Session closed successfully", 1, false⟩)
    ∧ db_c10_closed.attendance_records = db_c10.attendance_records
    ∧ db_c10_closed.enrollments = db_c10.enrollments := by
  have h : teacher_close_session db_c10 1 1
      = (db_c10_closed, .ok ⟨"Session closed successfully", 1, false⟩) := by
    rfl
  have hf := teacher_close_session_frame db_c10 db_c10_closed 1 1
    ⟨"Session closed successfully", 1, false⟩ h
  exact ⟨h, hf.2.2.2.2.2.2.1, hf.2.2.2.2.2.1⟩

/-
  Claim C2.
-/

/-- Claim C2 (amended): a successful SessionController.close_session flips
the active flag of the session, adds to every enrollment exactly the number
of still-ABSENT records of the session that name it (one per such record;
enrollments of PRESENT records are unchanged), leaves the attendance
records themselves unchanged, and returns present/absent/total counts —
with no excluded count — together with attendance_rate =
round2(present/total·100), 0 when total = 0. -/
theorem session_close_session_behavior (db : DB)
    (session_id teacher_id : Nat) (s : ClassSession) (tm : TeacherModules)
    (hsess : db.getSession session_id = some s)
    (hact : s.is_active = true)
    (htm : db.getTeacherModule s.teacher_module_id = some tm)
    (hown : tm.teacher_id = teacher_id) :
    (session_close_session db session_id teacher_id).1.sessions
      = db.sessions.map (fun x =>
          if x.id == session_id then { x with is_active := false } else x)
    ∧ (session_close_session db session_id teacher_id).1.enrollments
      = db.enrollments.map (fun e => { e with number_of_absences :=
          (e.number_of_absences
            + absent_count_for (session_records db session_id) e.id) })
    ∧ (session_close_session db session_id teacher_id).1.attendance_records
      = db.attendance_records
    ∧ (session_close_session db session_id teacher_id).2
      = .ok { session_id := session_id,
              is_active := false,
              total_students := (session_records db session_id).length,
              present := ((session_records db session_id).filter
                (fun r => r.status == AttendanceStatus.PRESENT)).length,
              absent := ((session_records db session_id).filter
                (fun r => r.status == AttendanceStatus.ABSENT)).length,
              attendance_rate :=
                if (session_records db session_id).length > 0 then
                  round2 ((((session_records db session_id).filter
                      (fun r => r.status == AttendanceStatus.PRESENT)).length
                      : ℚ)
                    / ((session_records db session_id).length : ℚ) * 100)
                else 0 } := by
  subst hown
  refine ⟨?_, ?_, ?_, ?_⟩
  · simp [session_close_session, hsess, hact, htm]
  · simp only [session_close_session, hsess, hact, htm]
    simp only [Bool.not_true, if_false, bne_self_eq_false]
    exact apply_absences_eq _ db.enrollments
  · simp [session_close_session, hsess, hact, htm]
  · simp [session_close_session, hsess, hact, htm, session_records]

/-- Witness for C2 at db_c2: session 1 has one PRESENT and one ABSENT
record; the absent enrollment's counter rises by one, the present one's is
unchanged, and the summary reports 1 present of 2 with rate 50. -/
theorem session_close_session_behavior_witness :
    db_c2.getSession 1 = some ⟨1, "ABC123", none, 90, true, 1⟩
    ∧ db_c2.getTeacherModule 1 = some ⟨1, 1, 1⟩
    ∧ (session_close_session db_c2 1 1).1.enrollments
      = db_c2.enrollments.map (fun e => { e with number_of_absences :=
          (e.number_of_absences
            + absent_count_for (session_records db_c2 1) e.id) })
    ∧ (session_close_session db_c2 1 1).1.enrollments
      = [⟨1, 1, 1, 0, 0, false, none, none⟩,
         ⟨2, 2, 1, 1, 0, false, none, none⟩] := by
  have h := session_close_session_behavior db_c2 1 1
    ⟨1, "ABC123", none, 90, true, 1⟩ ⟨1, 1, 1⟩ (by decide) (by decide)
    (by decide) (by decide)
  exact ⟨by decide, by decide, h.2.1, by rw [h.2.1]; decide⟩

/-- Counterexample for C2 as stated: closing db_c2's session returns
attendance_rate = 50 (a rounded percentage), which differs from the claimed
rate present/total = 1/2. -/
theorem session_close_rate_counterexample :
    (session_close_session db_c2 1 1).2
      = .ok { session_id := 1, is_active := false, total_students := 2,
              present := 1, absent := 1, attendance_rate := 50 }
    ∧ (50 : ℚ) ≠ (1 : ℚ) / (2 : ℚ) := by
  constructor
  · have b1 : (AttendanceStatus.ABSENT == AttendanceStatus.PRESENT) = false := by
      decide
    have b2 : (AttendanceStatus.PRESENT == AttendanceStatus.ABSENT) = false := by
      decide
    have b3 : (AttendanceStatus.ABSENT == AttendanceStatus.ABSENT) = true := by
      decide
    have b4 : (AttendanceStatus.PRESENT == AttendanceStatus.PRESENT) = true := by
      decide
    simp only [session_close_session, db_c2, DB.getSession, DB.getTeacherModule]
    norm_num [List.find?, apply_absences, List.foldl, List.filter, round2,
      b1, b2, b3, b4, round_ofNat]
  · norm_num

/-
  Claim C6.
-/

/-- Claim C6: a successful create_session appends exactly one ABSENT
attendance record per currently-enrolled non-excluded enrollment of the
module (in order, one record per enrollment id), and none for excluded
enrollments; the reported students_enrolled equals that number. -/
theorem create_session_absent_records (db : DB)
    (teacher_id module_id duration : Nat) (room : Option String)
    (share_code : String) (t : Teacher) (m : Module) (tm : TeacherModules)
    (ht : db.getTeacher teacher_id = some t)
    (hm : db.getModule module_id = some m)
    (htm : db.teacher_modules.find? (fun x =>
      x.teacher_id == teacher_id && x.module_id == module_id) = some tm) :
    (create_session db teacher_id module_id duration room share_code).2
      = .ok { session_id := db.next_session_id,
              share_code := share_code,
              is_active := true,
              students_enrolled :=
                (new_session_records db.next_session_id module_id
                  db.next_attendance_id (enrolled_for db module_id)).length }
    ∧ (create_session db teacher_id module_id duration room
        share_code).1.attendance_records
      = db.attendance_records
        ++ new_session_records db.next_session_id module_id
             db.next_attendance_id (enrolled_for db module_id)
    ∧ (new_session_records db.next_session_id module_id
        db.next_attendance_id (enrolled_for db module_id)).length
      = (enrolled_for db module_id).length
    ∧ (new_session_records db.next_session_id module_id
        db.next_attendance_id (enrolled_for db module_id)).map
          (fun r => r.enrollement_id)
      = (enrolled_for db module_id).map (fun e => e.id)
    ∧ ∀ r ∈ new_session_records db.next_session_id module_id
        db.next_attendance_id (enrolled_for db module_id),
        r.status = AttendanceStatus.ABSENT
        ∧ r.session_id = db.next_session_id := by
  refine ⟨?_, ?_, ?_, ?_, ?_⟩
  · simp [create_session, ht, hm, htm, enrolled_for]
  · simp [create_session, ht, hm, htm, enrolled_for]
  · exact new_session_records_length _ _ _ _
  · exact new_session_records_map_eid _ _ _ _
  · intro r hr
    exact new_session_records_status _ _ _ _ r hr

/-- Witness for C6 at db_c6 (Scenario A): five enrolled students produce
exactly five ABSENT records and students_enrolled = 5; the sixth, excluded,
enrollment gets none. -/
theorem create_session_absent_records_witness :
    db_c6.getTeacher 1 = some ⟨1⟩
    ∧ db_c6.getModule 1 = some ⟨1, "Algo", none⟩
    ∧ (create_session db_c6 1 1 90 none "XYZ999").2
      = .ok { session_id := 1, share_code := "XYZ999", is_active := true,
              students_enrolled := 5 }
    ∧ (create_session db_c6 1 1 90 none "XYZ999").1.attendance_records
      = [⟨1, .ABSENT, 1, 1, 1, none⟩, ⟨2, .ABSENT, 1, 1, 2, none⟩,
         ⟨3, .ABSENT, 1, 1, 3, none⟩, ⟨4, .ABSENT, 1, 1, 4, none⟩,
         ⟨5, .ABSENT, 1, 1, 5, none⟩] := by
  have h := create_session_absent_records db_c6 1 1 90 none "XYZ999"
    ⟨1⟩ ⟨1, "Algo", none⟩ ⟨1, 1, 1⟩ (by decide) (by decide) (by decide)
  refine ⟨by decide, by decide, ?_, ?_⟩
  · rw [h.1]; decide
  · rw [h.2.1]; decide

/-
  Claim C7.
-/

/-- Claim C7: excluding a not-yet-excluded enrollment sets its exclusion
flag, moves each of its ABSENT attendance records to EXCLUDED, leaves
records with other statuses (in particular PRESENT) untouched, and leaves
no ABSENT record of that enrollment behind; excluding an already-excluded
enrollment fails with the 400 InvalidState error and changes nothing. -/
theorem exclude_from_module_behavior (db : DB) (enrollment_id : Nat)
    (en : Enrollment)
    (hen : db.getEnrollment enrollment_id = some en) :
    (en.is_excluded = false →
      (make_excluded_from_module db enrollment_id).2
        = .ok { en with is_excluded := true }
      ∧ (make_excluded_from_module db enrollment_id).1.enrollments
        = db.enrollments.map (fun e =>
            if e.id == enrollment_id then { en with is_excluded := true }
            else e)
      ∧ (make_excluded_from_module db enrollment_id).1.attendance_records
        = db.attendance_records.map (fun r =>
            if r.enrollement_id == enrollment_id
                && r.status == AttendanceStatus.ABSENT then
              { r with status := AttendanceStatus.EXCLUDED }
            else r)
      ∧ (∀ r ∈ (make_excluded_from_module db enrollment_id).1.attendance_records,
          r.enrollement_id = enrollment_id →
            r.status ≠ AttendanceStatus.ABSENT)
      ∧ (∀ r ∈ db.attendance_records, r.status = AttendanceStatus.PRESENT →
          r ∈ (make_excluded_from_module db enrollment_id).1.attendance_records))
    ∧ (en.is_excluded = true →
        make_excluded_from_module db enrollment_id
          = (db, .error ⟨400, "Student is already excluded from this module"⟩)) := by
  constructor
  · intro hexc
    refine ⟨?_, ?_, ?_, ?_, ?_⟩
    · simp [make_excluded_from_module, hen, hexc]
    · simp [make_excluded_from_module, hen, hexc]
    · simp [make_excluded_from_module, hen, hexc]
    · intro r hr hrid
      have hmap : (make_excluded_from_module db enrollment_id).1.attendance_records
          = db.attendance_records.map (fun x =>
              if x.enrollement_id == enrollment_id
                  && x.status == AttendanceStatus.ABSENT then
                { x with status := AttendanceStatus.EXCLUDED }
              else x) := by
        simp [make_excluded_from_module, hen, hexc]
      rw [hmap] at hr
      rcases List.mem_map.mp hr with ⟨a, _, ha⟩
      by_cases hcond : (a.enrollement_id == enrollment_id
          && a.status == AttendanceStatus.ABSENT) = true
      · rw [if_pos hcond] at ha
        rw [← ha]
        intro hcontra
        exact AttendanceStatus.noConfusion hcontra
      · rw [if_neg hcond] at ha
        subst ha
        intro habs
        apply hcond
        simp only [Bool.and_eq_true, beq_iff_eq]
        exact ⟨hrid, habs⟩
    · intro r hr hpres
      have hmap : (make_excluded_from_module db enrollment_id).1.attendance_records
          = db.attendance_records.map (fun x =>
              if x.enrollement_id == enrollment_id
                  && x.status == AttendanceStatus.ABSENT then
                { x with status := AttendanceStatus.EXCLUDED }
              else x) := by
        simp [make_excluded_from_module, hen, hexc]
      rw [hmap]
      have hfix : (if r.enrollement_id == enrollment_id
          && r.status == AttendanceStatus.ABSENT then
            { r with status := AttendanceStatus.EXCLUDED }
          else r) = r := by
        rw [if_neg]
        simp only [Bool.and_eq_true, beq_iff_eq, hpres]
        intro hc
        exact AttendanceStatus.noConfusion hc.2
      rw [← hfix]
      exact List.mem_map_of_mem _ hr
  · intro hexc
    simp [make_excluded_from_module, hen, hexc]

/-- Witness for C7 at db_c1: the single ABSENT record of enrollment 1 moves
to EXCLUDED and the flag is set. -/
theorem exclude_from_module_behavior_witness :
    db_c1.getEnrollment 1 = some ⟨1, 1, 1, 0, 0, false, none, none⟩
    ∧ (make_excluded_from_module db_c1 1).2
      = .ok ⟨1, 1, 1, 0, 0, true, none, none⟩
    ∧ (make_excluded_from_module db_c1 1).1.attendance_records
      = [⟨1, .EXCLUDED, 1, 1, 1, none⟩] := by
  have h := exclude_from_module_behavior db_c1 1
    ⟨1, 1, 1, 0, 0, false, none, none⟩ (by decide)
  have ha := h.1 rfl
  refine ⟨by decide, ha.1, ?_⟩
  rw [ha.2.2.1]
  decide

/-
  Claim C9.
-/

/-- Claim C9 (amended): both bulk operations continue past failing items
instead of aborting.  bulk_enroll_students returns a structured result in
which every input student id appears either in the success list or, with a
reason, in the failure list.  bulk_update_status, however, returns only the
successfully updated records: a failing item is skipped silently and the
loop proceeds on the unchanged store. -/
theorem bulk_operations_partial_failure (db : DB) (module_id : Nat)
    (ids : List Nat) (m : Module)
    (hm : db.getModule module_id = some m)
    (attendance_ids : List Nat) (aid : Nat)
    (new_status : AttendanceStatus) (e : Err)
    (hfail : update_attendance_status db aid new_status = (db, .error e)) :
    bulk_enroll_students db ids module_id
      = ((bulk_enroll_loop db module_id ids).1,
         .ok { module_id := module_id,
               successful_enrollments :=
                 (bulk_enroll_loop db module_id ids).2.1.length,
               failed_enrollments :=
                 (bulk_enroll_loop db module_id ids).2.2.length,
               enrolled_students := (bulk_enroll_loop db module_id ids).2.1,
               failures := (bulk_enroll_loop db module_id ids).2.2 })
    ∧ (bulk_enroll_loop db module_id ids).2.1.length
        + (bulk_enroll_loop db module_id ids).2.2.length = ids.length
    ∧ (∀ sid ∈ ids,
        sid ∈ (bulk_enroll_loop db module_id ids).2.1
        ∨ ∃ f ∈ (bulk_enroll_loop db module_id ids).2.2,
            f.student_id = sid)
    ∧ bulk_update_status db (aid :: attendance_ids) new_status
        = bulk_update_status db attendance_ids new_status := by
  obtain ⟨hlen, hcov⟩ := bulk_enroll_loop_coverage module_id ids db
  refine ⟨?_, hlen, hcov, ?_⟩
  · simp [bulk_enroll_students, hm]
  · simp [bulk_update_status, bulk_update_loop, hfail]

/-- Witness for C9 at db_c9: enrolling [1, 2] succeeds for student 1 and
records a per-item failure for missing student 2, while a bulk status
update hitting the invalid PRESENT→EXCLUDED transition on record 1 skips
it and continues. -/
theorem bulk_operations_partial_failure_witness :
    db_c9.getModule 1 = some ⟨1, "Algo", none⟩
    ∧ update_attendance_status db_c9 1 .EXCLUDED
      = (db_c9, .error ⟨400, transition_err_detail .PRESENT .EXCLUDED⟩)
    ∧ (bulk_enroll_loop db_c9 1 [1, 2]).2.1.length
        + (bulk_enroll_loop db_c9 1 [1, 2]).2.2.length = 2
    ∧ bulk_update_status db_c9 [1, 1] .EXCLUDED
        = bulk_update_status db_c9 [1] .EXCLUDED := by
  have h := bulk_operations_partial_failure db_c9 1 [1, 2] ⟨1, "Algo", none⟩
    (by decide) [1] 1 .EXCLUDED ⟨400, transition_err_detail .PRESENT .EXCLUDED⟩
    (by decide)
  exact ⟨by decide, by decide, h.2.1, h.2.2.2⟩

/-- Counterexample for C9 as stated: a bulk status update whose single item
fails returns the empty list — there is no per-item failure entry, so the
returned structure does not cover every input item. -/
theorem bulk_update_status_no_failure_list_counterexample :
    bulk_update_status db_c9 [1] .EXCLUDED = (db_c9, [])
    ∧ ([] : List AttendanceRecord).length ≠ [1].length := by
  exact ⟨by decide, by decide⟩

/-
  Claim C5.
-/

/-- Claim C5 (amended): mark_attendance fails NotFound (404) when the share
code matches no session, InvalidState (400) when the session is closed,
NotFound (404) — not Forbidden — when the student has no enrollment in the
session's module, Forbidden (403) when the enrollment is excluded, and
InvalidState (400) when the record is already PRESENT; otherwise it sets
the record to PRESENT, and a second call by the same student with the same
code fails with the already-marked InvalidState error. -/
theorem mark_attendance_behavior (db : DB) (share_code : String)
    (student_id : Nat) :
    (db.sessions.find? (fun s => s.session_code == share_code) = none →
      mark_attendance db share_code student_id
        = (db, .error ⟨404, "Invalid code. Session not found."⟩))
    ∧ (∀ s, db.sessions.find? (fun x => x.session_code == share_code) = some s →
        s.is_active = false →
        mark_attendance db share_code student_id
          = (db, .error ⟨400, "Session is closed. Cannot mark attendance."⟩))
    ∧ (∀ s tm,
        db.sessions.find? (fun x => x.session_code == share_code) = some s →
        s.is_active = true →
        db.getTeacherModule s.teacher_module_id = some tm →
        db.enrollments.find? (fun e =>
          e.student_id == student_id && e.module_id == tm.module_id) = none →
        mark_attendance db share_code student_id
          = (db, .error ⟨404, "You are not enrolled in this module"⟩))
    ∧ (∀ s tm en,
        db.sessions.find? (fun x => x.session_code == share_code) = some s →
        s.is_active = true →
        db.getTeacherModule s.teacher_module_id = some tm →
        db.enrollments.find? (fun e =>
          e.student_id == student_id && e.module_id == tm.module_id) = some en →
        en.is_excluded = true →
        mark_attendance db share_code student_id
          = (db, .error ⟨403, "You are excluded from this module"⟩))
    ∧ (∀ s tm en ar,
        db.sessions.find? (fun x => x.session_code == share_code) = some s →
        s.is_active = true →
        db.getTeacherModule s.teacher_module_id = some tm →
        db.enrollments.find? (fun e =>
          e.student_id == student_id && e.module_id == tm.module_id) = some en →
        en.is_excluded = false →
        db.attendance_records.find? (fun r =>
          r.session_id == s.id && r.enrollement_id == en.id) = some ar →
        ar.status = AttendanceStatus.PRESENT →
        mark_attendance db share_code student_id
          = (db, .error ⟨400, "Attendance already marked as present"⟩))
    ∧ (∀ s tm en ar,
        db.sessions.find? (fun x => x.session_code == share_code) = some s →
        s.is_active = true →
        db.getTeacherModule s.teacher_module_id = some tm →
        db.enrollments.find? (fun e =>
          e.student_id == student_id && e.module_id == tm.module_id) = some en →
        en.is_excluded = false →
        db.attendance_records.find? (fun r =>
          r.session_id == s.id && r.enrollement_id == en.id) = some ar →
        ar.status ≠ AttendanceStatus.PRESENT →
        (mark_attendance db share_code student_id).2
          = .ok { message := "Attendance marked successfully",
                  student_id := student_id,
                  session_id := s.id,
                  status_value := "PRESENT" }
        ∧ (mark_attendance db share_code student_id).1.attendance_records
          = db.attendance_records.map (fun r =>
              if r.id == ar.id then { ar with status := AttendanceStatus.PRESENT }
              else r)
        ∧ mark_attendance (mark_attendance db share_code student_id).1
            share_code student_id
          = ((mark_attendance db share_code student_id).1,
             .error ⟨400, "Attendance already marked as present"⟩)) := by
  refine ⟨?_, ?_, ?_, ?_, ?_, ?_⟩
  · intro hnone
    simp [mark_attendance, hnone]
  · intro s hfind hact
    simp [mark_attendance, hfind, hact]
  · intro s tm hfind hact htm hen
    have htm2 : db.teacher_modules.find?
        (fun t => t.id == s.teacher_module_id) = some tm := htm
    simp [mark_attendance, hfind, hact, DB.getTeacherModule, htm2, hen]
  · intro s tm en hfind hact htm hen hexc
    have htm2 : db.teacher_modules.find?
        (fun t => t.id == s.teacher_module_id) = some tm := htm
    simp [mark_attendance, hfind, hact, DB.getTeacherModule, htm2, hen, hexc]
  · intro s tm en ar hfind hact htm hen hexc har hpres
    have htm2 : db.teacher_modules.find?
        (fun t => t.id == s.teacher_module_id) = some tm := htm
    simp [mark_attendance, hfind, hact, DB.getTeacherModule, htm2, hen, hexc,
      har, hpres]
  · intro s tm en ar hfind hact htm hen hexc har hne
    have htm2 : db.teacher_modules.find?
        (fun t => t.id == s.teacher_module_id) = some tm := htm
    have hne2 : (ar.status == AttendanceStatus.PRESENT) = false := by
      simp [hne]
    have hq0 := List.find?_some har
    have hq : (ar.session_id == s.id && ar.enrollement_id == en.id)
        = true := hq0
    have hdb1 : mark_attendance db share_code student_id
        = ({ db with attendance_records := (db.attendance_records.map
              (fun r => if r.id == ar.id
                then { ar with status := AttendanceStatus.PRESENT } else r)) },
           .ok { message := "Attendance marked successfully",
                 student_id := student_id,
                 session_id := s.id,
                 status_value := "PRESENT" }) := by
      simp [mark_attendance, hfind, hact, DB.getTeacherModule, htm2, hen,
        hexc, har, hne2]
    have hfound : (db.attendance_records.map
        (fun r => if r.id == ar.id
          then { ar with status := AttendanceStatus.PRESENT } else r)).find?
          (fun r => r.session_id == s.id && r.enrollement_id == en.id)
        = some { ar with status := AttendanceStatus.PRESENT} :=
      find?_update_by_key AttendanceRecord.id ar.id
        (fun r => r.session_id == s.id && r.enrollement_id == en.id)
        db.attendance_records ar
        { ar with status := AttendanceStatus.PRESENT } har hq rfl
    refine ⟨?_, ?_, ?_⟩
    · rw [hdb1]
    · rw [hdb1]
    · rw [hdb1]
      simp only [beq_iff_eq] at hfound
      simp [mark_attendance, hfind, hact, DB.getTeacherModule, htm2, hen,
        hexc, hfound, -List.find?_map]

/-- Witness for C5 at db_c5w: student 1 marks attendance with the open
code, the record flips to PRESENT, and the immediate second call fails with
the already-marked error. -/
theorem mark_attendance_behavior_witness :
    db_c5w.attendance_records.find? (fun r =>
      r.session_id == 1 && r.enrollement_id == 1)
      = some ⟨1, .ABSENT, 1, 1, 1, none⟩
    ∧ (mark_attendance db_c5w "ABC123" 1).2
      = .ok { message := "Attendance marked successfully", student_id := 1,
              session_id := 1, status_value := "PRESENT" }
    ∧ mark_attendance (mark_attendance db_c5w "ABC123" 1).1 "ABC123" 1
      = ((mark_attendance db_c5w "ABC123" 1).1,
         .error ⟨400, "Attendance already marked as present"⟩) := by
  have h := (mark_attendance_behavior db_c5w "ABC123" 1).2.2.2.2.2
    ⟨1, "ABC123", none, 90, true, 1⟩ ⟨1, 1, 1⟩
    ⟨1, 1, 1, 0, 0, false, none, none⟩ ⟨1, .ABSENT, 1, 1, 1, none⟩
    (by decide) (by decide) (by decide) (by decide) (by decide) (by decide)
    (by decide)
  exact ⟨by decide, h.1, h.2.2⟩

/-- Counterexample for C5 as stated: marking with a valid open code while
not enrolled fails with status 404 (NotFound), not the claimed Forbidden
(403). -/
theorem mark_attendance_not_enrolled_counterexample :
    mark_attendance db_c5 "ABC123" 2
      = (db_c5, .error ⟨404, "You are not enrolled in this module"⟩)
    ∧ (404 : Nat) ≠ 403 := by
  exact ⟨by decide, by decide⟩

/-
  Claim C8.
-/

/-- Claim C8 (amended): justify_absence fails Forbidden (403) — not
InvalidState — when the attendance record does not belong to the submitting
student (via enrollment ownership), InvalidState (400) when the record is
not ABSENT, and with the duplicate-justification 400 (the Conflict of the
spec taxonomy) when a justification already exists; on success it creates
the justification in PENDING and writes the back-reference onto the
attendance record. -/
theorem justify_absence_behavior (db : DB) (student_id arid : Nat)
    (comment : String) (file_url : Option String)
    (st : Student) (ar : AttendanceRecord) (en : Enrollment)
    (hst : db.getStudent student_id = some st)
    (har : db.getAttendanceRecord arid = some ar)
    (hen : db.getEnrollment ar.enrollement_id = some en) :
    (en.student_id ≠ student_id →
      justify_absence db student_id arid comment file_url
        = (db, .error ⟨403, "This attendance record does not belong to you"⟩))
    ∧ (en.student_id = student_id → ar.status ≠ AttendanceStatus.ABSENT →
        justify_absence db student_id arid comment file_url
          = (db, .error ⟨400, "Can only justify absences"⟩))
    ∧ (∀ j0, en.student_id = student_id →
        ar.status = AttendanceStatus.ABSENT →
        db.justifications.find? (fun j => j.attendance_record_id == arid)
          = some j0 →
        justify_absence db student_id arid comment file_url
          = (db, .error ⟨400, "A justification already exists for this absence"⟩))
    ∧ (∀ u, en.student_id = student_id →
        ar.status = AttendanceStatus.ABSENT →
        db.justifications.find? (fun j => j.attendance_record_id == arid)
          = none →
        db.getUser st.user_id = some u →
        (justify_absence db student_id arid comment file_url).2
          = .ok ⟨db.next_justification_id, arid, some comment, file_url,
                 .PENDING⟩
        ∧ (justify_absence db student_id arid comment file_url).1.getAttendanceRecord
            arid
          = some { ar with justification_id := some db.next_justification_id }
        ∧ (⟨db.next_justification_id, arid, some comment, file_url,
              .PENDING⟩ : Justification)
            ∈ (justify_absence db student_id arid comment
                file_url).1.justifications) := by
  have hfind2 : List.find? (fun r => r.id == arid) db.attendance_records
      = some ar := har
  have hid0 := List.find?_some hfind2
  have hid : (ar.id == arid) = true := hid0
  have hkey : ar.id = arid := by simpa using hid
  refine ⟨?_, ?_, ?_, ?_⟩
  · intro hneq
    have hb : (en.student_id != student_id) = true := by simp [hneq]
    simp [justify_absence, hst, har, hen, hb]
  · intro heq hne
    have hb : (en.student_id != student_id) = false := by simp [heq]
    have hb2 : (ar.status != AttendanceStatus.ABSENT) = true := by
      simp [hne]
    simp [justify_absence, hst, har, hen, hb, hb2]
  · intro j0 heq habs hj0
    have hb : (en.student_id != student_id) = false := by simp [heq]
    have hb2 : (ar.status != AttendanceStatus.ABSENT) = false := by
      simp [habs]
    simp [justify_absence, hst, har, hen, hb, hb2, hj0]
  · intro u heq habs hnoj hu
    have hb : (en.student_id != student_id) = false := by simp [heq]
    have hb2 : (ar.status != AttendanceStatus.ABSENT) = false := by
      simp [habs]
    have hu2 : List.find? (fun x => x.id == st.user_id) db.users
        = some u := hu
    have hok : justify_absence db student_id arid comment file_url
        = ({ db with
               justifications := (db.justifications
                 ++ [⟨db.next_justification_id, arid, some comment, file_url,
                      .PENDING⟩]),
               next_justification_id := db.next_justification_id + 1,
               attendance_records := (db.attendance_records.map (fun r =>
                 if r.id == arid then
                   { r with justification_id := some db.next_justification_id }
                 else r)),
               notifications := (db.notifications
                 ++ [⟨db.next_notification_id, st.user_id,
                      "Justification Submitted",
                      "Your justification for attendance record #"
                        ++ toString arid
                        ++ " has been submitted and is pending review.",
                      NotificationType.JUSTIFICATION_SUBMITTED, false⟩]),
               next_notification_id := db.next_notification_id + 1 },
           .ok ⟨db.next_justification_id, arid, some comment, file_url,
                .PENDING⟩) := by
      simp [justify_absence, hst, har, hen, hb, hb2, hnoj,
        create_notification, DB.getUser, hu2]
    refine ⟨?_, ?_, ?_⟩
    · rw [hok]
    · rw [hok]
      exact find?_map_self_update (fun r => r.id == arid)
        (fun r => { r with justification_id := some db.next_justification_id })
        (fun a => rfl) db.attendance_records ar hfind2
    · rw [hok]
      simp

/-- Witness for C8 at db_c8: owner student 1 submits against the ABSENT
record; the justification is created PENDING and the back-reference is
written onto the record. -/
theorem justify_absence_behavior_witness :
    db_c8.getStudent 1 = some ⟨1, 10⟩
    ∧ db_c8.getAttendanceRecord 1 = some ⟨1, .ABSENT, 1, 1, 1, none⟩
    ∧ (justify_absence db_c8 1 1 "sick" none).2
      = .ok ⟨1, 1, some "sick", none, .PENDING⟩
    ∧ (justify_absence db_c8 1 1 "sick" none).1.getAttendanceRecord 1
      = some ⟨1, .ABSENT, 1, 1, 1, some 1⟩ := by
  have h := (justify_absence_behavior db_c8 1 1 "sick" none ⟨1, 10⟩
    ⟨1, .ABSENT, 1, 1, 1, none⟩ ⟨1, 1, 1, 0, 0, false, none, none⟩
    (by decide) (by decide) (by decide)).2.2.2 ⟨10⟩ rfl rfl (by decide)
    (by decide)
  exact ⟨by decide, by decide, h.1, h.2.1⟩

/-- Counterexample for C8 as stated: a submit by a student who does not own
the record fails with status 403 (Forbidden), not an InvalidState
(400-class) error as the claim says. -/
theorem justify_absence_wrong_owner_counterexample :
    justify_absence db_c8 2 1 "sick" none
      = (db_c8, .error ⟨403, "This attendance record does not belong to you"⟩)
    ∧ (403 : Nat) ≠ 400 := by
  exact ⟨by decide, by decide⟩

/-
  Claim C4.
-/

/-- Claim C4: deciding a PENDING justification with APPROVE sets it to
APPROVED and the linked attendance record to PRESENT; deciding with REJECT
sets it to REJECTED and leaves the attendance records untouched.  When the
pending justification arose from a submit, the linked record is still
ABSENT, so submit-then-approve leaves the record PRESENT and
submit-then-reject leaves it ABSENT. -/
theorem validate_justification_decide (db : DB) (jid teacher_id : Nat)
    (j : Justification) (ar : AttendanceRecord) (s : ClassSession)
    (en : Enrollment) (st : Student) (u : User)
    (hj : db.getJustification jid = some j)
    (hpend : j.status = JustificationStatus.PENDING)
    (har : db.getAttendanceRecord j.attendance_record_id = some ar)
    (hs : db.getSession ar.session_id = some s)
    (hown : verify_teacher_owns_session db s teacher_id = true)
    (hen : db.getEnrollment ar.enrollement_id = some en)
    (hst : db.getStudent en.student_id = some st)
    (hu : db.getUser st.user_id = some u) :
    ((validate_justification db jid teacher_id "approve").2
      = .ok { message := "Justification has been approved successfully",
              justification_status := JustificationStatus.APPROVED,
              attendance_status := AttendanceStatus.PRESENT }
    ∧ (validate_justification db jid teacher_id "approve").1.getJustification
        jid = some { j with status := JustificationStatus.APPROVED }
    ∧ (validate_justification db jid teacher_id "approve").1.getAttendanceRecord
        j.attendance_record_id
      = some { ar with status := AttendanceStatus.PRESENT })
    ∧ ((validate_justification db jid teacher_id "reject").2
      = .ok { message := "Justification has been rejected successfully",
              justification_status := JustificationStatus.REJECTED,
              attendance_status := ar.status }
    ∧ (validate_justification db jid teacher_id "reject").1.getJustification
        jid = some { j with status := JustificationStatus.REJECTED }
    ∧ (validate_justification db jid teacher_id "reject").1.attendance_records
      = db.attendance_records)
    ∧ (∀ (db0 : DB) (sid0 : Nat) (cmt : String) (fu : Option String),
        justify_absence db0 sid0 j.attendance_record_id cmt fu = (db, .ok j) →
        ar.status = AttendanceStatus.ABSENT
        ∧ (validate_justification db jid teacher_id
            "reject").1.getAttendanceRecord j.attendance_record_id
          = some ar) := by
  have hj2 : List.find? (fun x => x.id == jid) db.justifications = some j := hj
  have har2 : List.find? (fun r => r.id == j.attendance_record_id)
      db.attendance_records = some ar := har
  have hs2 : List.find? (fun x => x.id == ar.session_id) db.sessions
      = some s := hs
  have hen2 : List.find? (fun e => e.id == ar.enrollement_id) db.enrollments
      = some en := hen
  have hst2 : List.find? (fun x => x.id == en.student_id) db.students
      = some st := hst
  have hu2 : List.find? (fun x => x.id == st.user_id) db.users
      = some u := hu
  have hpfalse : (j.status != JustificationStatus.PENDING) = false := by
    simp [hpend]
  have happrove : validate_justification db jid teacher_id "approve"
      = ({ db with
             justifications := (db.justifications.map (fun x =>
               if x.id == jid then
                 { j with status := JustificationStatus.APPROVED }
               else x)),
             notifications := (db.notifications
               ++ [⟨db.next_notification_id, st.user_id,
                    "Justification Approved",
                    "Your justification for attendance record #"
                      ++ toString j.attendance_record_id
                      ++ " has been approved.",
                    NotificationType.JUSTIFICATION_APPROVED, false⟩]),
             next_notification_id := db.next_notification_id + 1,
             attendance_records := (db.attendance_records.map (fun r =>
               if r.id == ar.id then
                 { ar with status := AttendanceStatus.PRESENT }
               else r)) },
         .ok { message := "Justification has been approved successfully",
               justification_status := JustificationStatus.APPROVED,
               attendance_status := AttendanceStatus.PRESENT }) := by
    simp [validate_justification, justification_approve, create_notification,
      DB.getJustification, DB.getAttendanceRecord, DB.getSession,
      DB.getEnrollment, DB.getStudent, DB.getUser,
      hj2, hpfalse, har2, hs2, hown, hen2, hst2, hu2]
  have hjid0 := List.find?_some hj2
  have hjid : j.id = jid := by simpa using hjid0
  have harid0 := List.find?_some har2
  have harid : (ar.id == j.attendance_record_id) = true := harid0
  have hreject : validate_justification db jid teacher_id "reject"
      = ({ db with
             justifications := (db.justifications.map (fun x =>
               if x.id == jid then
                 { j with status := JustificationStatus.REJECTED }
               else x)),
             notifications := (db.notifications
               ++ [⟨db.next_notification_id, st.user_id,
                    "Justification Rejected",
                    "Your justification for attendance record #"
                      ++ toString j.attendance_record_id
                      ++ " has been rejected.",
                    NotificationType.JUSTIFICATION_REJECTED, false⟩]),
             next_notification_id := db.next_notification_id + 1 },
         .ok { message := "Justification has been rejected successfully",
               justification_status := JustificationStatus.REJECTED,
               attendance_status := ar.status }) := by
    simp [validate_justification, justification_reject, create_notification,
      DB.getJustification, DB.getAttendanceRecord, DB.getSession,
      DB.getEnrollment, DB.getStudent, DB.getUser,
      hj2, hpfalse, har2, hs2, hown, hen2, hst2, hu2]
  refine ⟨⟨?_, ?_, ?_⟩, ⟨?_, ?_, ?_⟩, ?_⟩
  · rw [happrove]
  · rw [happrove]
    exact find?_update_by_key Justification.id jid (fun x => x.id == jid)
      db.justifications j { j with status := JustificationStatus.APPROVED }
      hj2 (by simpa using hjid) hjid
  · rw [happrove]
    exact find?_update_by_key AttendanceRecord.id ar.id
      (fun r => r.id == j.attendance_record_id)
      db.attendance_records ar
      { ar with status := AttendanceStatus.PRESENT }
      har2 harid rfl
  · rw [hreject]
  · rw [hreject]
    exact find?_update_by_key Justification.id jid (fun x => x.id == jid)
      db.justifications j { j with status := JustificationStatus.REJECTED }
      hj2 (by simpa using hjid) hjid
  · rw [hreject]
  · intro db0 sid0 cmt fu hsub
    obtain ⟨hjeq, ar0, har0, habs0, hrecs⟩ :=
      justify_absence_ok_inversion db0 db sid0 j.attendance_record_id cmt fu
        j hsub
    have har0b : List.find? (fun r => r.id == j.attendance_record_id)
        db0.attendance_records = some ar0 := har0
    have hfound : List.find? (fun r => r.id == j.attendance_record_id)
        db.attendance_records
        = some { ar0 with justification_id := some db0.next_justification_id } := by
      rw [hrecs]
      exact find?_map_self_update
        (fun r => r.id == j.attendance_record_id)
        (fun r => { r with justification_id := some db0.next_justification_id })
        (fun a => rfl) db0.attendance_records ar0 har0b
    have hareq : ar = { ar0 with justification_id := some db0.next_justification_id } := by
      have := har2.symm.trans hfound
      injection this
    constructor
    · rw [hareq]
      exact habs0
    · rw [hreject]
      exact har2

/-- Witness for C4 at the post-submit store db_c4w: approve flips the
record to PRESENT and the justification to APPROVED; reject leaves the
record ABSENT. -/
theorem validate_justification_decide_witness :
    justify_absence db_c8 1 1 "sick" none
      = (db_c4w, .ok ⟨1, 1, some "sick", none, .PENDING⟩)
    ∧ (validate_justification db_c4w 1 1 "approve").1.getAttendanceRecord 1
      = some ⟨1, .PRESENT, 1, 1, 1, some 1⟩
    ∧ (validate_justification db_c4w 1 1 "reject").1.getAttendanceRecord 1
      = some ⟨1, .ABSENT, 1, 1, 1, some 1⟩
    ∧ (validate_justification db_c4w 1 1 "approve").1.getJustification 1
      = some ⟨1, 1, some "sick", none, .APPROVED⟩ := by
  have h := validate_justification_decide db_c4w 1 1
    ⟨1, 1, some "sick", none, .PENDING⟩ ⟨1, .ABSENT, 1, 1, 1, some 1⟩
    ⟨1, "ABC123", none, 90, true, 1⟩ ⟨1, 1, 1, 0, 0, false, none, none⟩
    ⟨1, 10⟩ ⟨10⟩ (by decide) rfl (by decide) (by decide) (by decide)
    (by decide) (by decide) (by decide)
  have hsub : justify_absence db_c8 1 1 "sick" none
      = (db_c4w, .ok ⟨1, 1, some "sick", none, .PENDING⟩) := by decide
  refine ⟨hsub, ?_, ?_, ?_⟩
  · exact h.1.2.2
  · exact (h.2.2 db_c8 1 "sick" none hsub).2
  · exact h.1.2.1

end Hodory

